import Mathlib

/-!
Shallow embedding of the Sentinela weather-alert decision core
(repository clima_udi, directory src/sentinela).

Scalars (temperatures, humidities, pressures, radiations, deltas,
timestamps in seconds) are modelled as rationals; Python dictionary
fields that may be missing or `None` are modelled as `Option`.
Zone labels and critical-alert kinds are the exact strings used by the
source.  `datetime.now()` values are modelled by `Instant`, carrying the
epoch seconds (used for elapsed-time arithmetic in
`should_send_general_alert`) and the local calendar date (used by the
once-per-day report gate in `should_send_report`).
-/

namespace Sentinela

/-- A `datetime.now()` value: epoch seconds plus the local calendar date
(`datetime.date()`), the only two projections the source uses. -/
structure Instant where
  seconds : ℚ
  dia : ℤ
deriving DecidableEq, Repr

/-! ### Config constants (config.py) -/

def CONFORTO_FRIO : ℚ := 19
def CONFORTO_FRESCO : ℚ := 21
def CONFORTO_IDEAL : ℚ := 24
def CONFORTO_MORNO : ℚ := 27
def CONFORTO_QUENTE : ℚ := 30
def CONFORTO_MUITO_QUENTE : ℚ := 33
def TEMP_BAIXA : ℚ := 18
def LIMITE_TEMP : ℚ := 1/2
def LIMITE_UMIDADE : ℚ := 5
def LIMITE_PRESSAO : ℚ := 2
def RAD_LIMIT_BAIXA : ℚ := 1000
def RAD_LIMIT_MODERADA : ℚ := 2000
def RAD_LIMIT_ALTA : ℚ := 2500
def RAD_LIMIT_MUITO_ALTA : ℚ := 3000
/-- ZonaTemperatura.classificar (zona_temperatura.py). -/
def classificarTemperatura (temperatura : ℚ) : String :=
  if temperatura < CONFORTO_FRIO then "FRIO"
  else if temperatura < CONFORTO_FRESCO then "FRESCO"
  else if temperatura < CONFORTO_IDEAL then "IDEAL"
  else if temperatura < CONFORTO_MORNO then "MORNO"
  else if temperatura < CONFORTO_QUENTE then "QUENTE"
  else if temperatura < CONFORTO_MUITO_QUENTE then "MUITO_QUENTE"
  else "EXTREMO"

/-- ZonaRadiacao.classificar (zona_radiacao.py); negative API values are
classified as night (`radiacao <= 0` returns NOITE). -/
def classificarRadiacao (radiacao : ℚ) : String :=
  if radiacao ≤ 0 then "NOITE"
  else if radiacao < 50 then "CREPUSCULO"
  else if radiacao < RAD_LIMIT_BAIXA then "BAIXA"
  else if radiacao < RAD_LIMIT_MODERADA then "MODERADA"
  else if radiacao < RAD_LIMIT_ALTA then "ALTA"
  else if radiacao < RAD_LIMIT_MUITO_ALTA then "MUITO_ALTA"
  else "EXTREMA"

/-- One per-domain entry of states.json
(`state_manager.py::_create_default_states`): zone label, value at the
last zone change, and the timestamp of that change.  All three are null
on bootstrap. -/
structure ZoneState where
  zona : Option String
  valor : Option ℚ
  ultimaMudanca : Option Instant
deriving DecidableEq, Repr

/-- The dict returned by each `detectar_mudanca`: either a
`primeira_leitura` (no prior persisted zone) or a `mudanca_zona`
carrying the prior and current zones and values and a timestamp. -/
inductive Mudanca where
  | primeiraLeitura (zonaAtual : String) (valorAtual : ℚ)
  | mudancaZona (zonaAnterior zonaAtual : String) (valorAnterior : Option ℚ)
      (valorAtual : ℚ) (timestamp : Instant)
deriving DecidableEq, Repr

def Mudanca.zonaAtual : Mudanca → String
  | .primeiraLeitura z _ => z
  | .mudancaZona _ z _ _ _ => z

/-- The shared body of the six `detectar_mudanca` functions
(zona_temperatura.py lines 50-84 and its five textual copies),
parameterized by the domain classifier.  `now` stands for the
`datetime.now()` call in the `mudanca_zona` branch. -/
def detectarMudanca (classificar : ℚ → String) (atual : ℚ)
    (estadoAnterior : ZoneState) (now : Instant) : Option Mudanca :=
  let zonaAtual := classificar atual
  match estadoAnterior.zona with
  | none => some (.primeiraLeitura zonaAtual atual)
  | some zonaAnterior =>
      if zonaAtual ≠ zonaAnterior then
        some (.mudancaZona zonaAnterior zonaAtual estadoAnterior.valor atual now)
      else
        none

/-- StateManager.update_zone_state: overwrites the whole per-domain
entry with the new zone, the new value and `datetime.now()`. -/
def updateZoneState (zonaAtual : String) (valorAtual : ℚ) (now : Instant) : ZoneState :=
  { zona := some zonaAtual, valor := some valorAtual, ultimaMudanca := some now }

/-! ### Temperature transition message
(zona_temperatura.py `gerar_alerta_inteligente` / `_gerar_dica`).
Numeric formatting (Python `{:.1f}` etc.) is abstracted by `toString`;
the message text itself is not under any claim, only whether a message
is produced at all. -/

/-- Emoji table of `gerar_alerta_inteligente`; zones always come from
`classificar`, so the dictionary lookup never misses (a miss would raise
KeyError in the source and is modelled by the empty string). -/
def emojiTemperatura (zona : String) : String :=
  if zona = "FRIO" then "🥶"
  else if zona = "FRESCO" then "🌡️"
  else if zona = "IDEAL" then "✅"
  else if zona = "MORNO" then "🌤️"
  else if zona = "QUENTE" then "🔥"
  else if zona = "MUITO_QUENTE" then "🥵"
  else if zona = "EXTREMO" then "🔴"
  else ""

/-- Description table of `gerar_alerta_inteligente`. -/
def descricaoTemperatura (zona : String) : String :=
  if zona = "FRIO" then "Frio (precisa agasalho)"
  else if zona = "FRESCO" then "Fresco (ótima troca de calor)"
  else if zona = "IDEAL" then "Confortável (perfeito)"
  else if zona = "MORNO" then "Morno (começando esquentar)"
  else if zona = "QUENTE" then "Quente (desconfortável)"
  else if zona = "MUITO_QUENTE" then "Muito quente (suor, fadiga)"
  else if zona = "EXTREMO" then "Calor extremo (risco à saúde)"
  else ""

/-- ZonaTemperatura._gerar_dica: contextual tip keyed by the destination
zone, occasionally by the origin zone. -/
def gerarDicaTemperatura (zonaAnterior zonaAtual : String) : String :=
  if zonaAtual = "MUITO_QUENTE" ∨ zonaAtual = "EXTREMO" then
    "\n\n💡 Calor aumentando\nUse roupas leves e hidrate-se\nEvite atividades intensas"
  else if zonaAtual = "FRIO" then
    "\n\n💡 Temperatura caindo\nAgasalho pesado recomendado\nAtenção com crianças e idosos"
  else if zonaAtual = "FRESCO" ∨ zonaAtual = "IDEAL" then
    (if zonaAnterior = "QUENTE" ∨ zonaAnterior = "MUITO_QUENTE" ∨ zonaAnterior = "EXTREMO" then
      "\n\n💡 Temperatura aliviando\nAmbiente mais confortável\nBom momento para atividades"
    else
      "\n\n💡 Temperatura agradável\nConforto térmico ideal")
  else if zonaAtual = "QUENTE" then
    "\n\n💡 Ambiente esquentando\nVentilação recomendada\nHidrate-se regularmente"
  else if zonaAtual = "MORNO" then
    "\n\n💡 Temperatura subindo\nAmbiente começando a aquecer"
  else ""

/-- Prints a possibly-missing prior value.  In the source a missing
prior value inside the f-string would raise; the state manager always
stores zone and value together, so this branch is unreachable for state
the program itself wrote. -/
def formatValor (v : Option ℚ) : String :=
  match v with
  | some q => toString q
  | none => ""

/-- ZonaTemperatura.gerar_alerta_inteligente: `None` on a first reading,
otherwise the formatted transition message. -/
def gerarAlertaInteligenteTemperatura (mudanca : Mudanca) : Option String :=
  match mudanca with
  | .primeiraLeitura _ _ => none
  | .mudancaZona zonaAnt zonaAtual valorAnt valorAtual ts =>
      let dica := gerarDicaTemperatura zonaAnt zonaAtual
      some ("🌡️ MUDANÇA DE CONFORTO\nUberlândia • " ++ toString ts.seconds ++
        "\n\nTemperatura: " ++ toString valorAtual ++ "°C\nConforto: " ++
        zonaAnt ++ " → " ++ zonaAtual ++ " " ++ emojiTemperatura zonaAtual ++
        "\n\nEra: " ++ formatValor valorAnt ++ "°C (" ++ descricaoTemperatura zonaAnt ++
        ")\nAgora: " ++ toString valorAtual ++ "°C (" ++ descricaoTemperatura zonaAtual ++
        ")" ++ dica)

/-! ### Readings and critical evaluators -/

/-- A row of the `medicoes` table as the sentinela reads it.  Columns
not consulted by the decision core are omitted; each kept column may be
SQL NULL, hence `Option`. -/
structure Leitura where
  temIns : Option ℚ
  umdIns : Option ℚ
  preIns : Option ℚ
  venVel : Option ℚ
  venRaj : Option ℚ
  chuva : Option ℚ
  radGlo : Option ℚ
deriving DecidableEq, Repr

/-- One critical-alert dict (`verificar_critico` outputs), tagged by its
`tipo` string and carrying the same payload fields as the source. -/
inductive Alerta where
  | calorExtremo (temperatura limiar : ℚ)
  | frioExtremo (temperatura limiar : ℚ)
  | mudancaBrusca (delta tempAnterior tempAtual : ℚ) (direcao : String)
  | arMuitoSeco (umidade : ℚ)
  | ventoForte (ventoSustentado rajada : ℚ) (beaufort : String)
  | chuvaIntensa (intensidade acumulado24h : ℚ)
  | chuvaAcumulada (intensidade acumulado24h : ℚ)
  | uvExtremo (radiacao : ℚ) (uvIndex : ℤ)
  | quedaBrusca (pressaoAtual delta : ℚ)
  | pressaoMuitoBaixa (pressaoAtual : ℚ)
deriving DecidableEq, Repr

/-- The `tipo` tag of an alert dict. -/
def Alerta.tipo : Alerta → String
  | .calorExtremo _ _ => "calor_extremo"
  | .frioExtremo _ _ => "frio_extremo"
  | .mudancaBrusca _ _ _ _ => "mudanca_brusca"
  | .arMuitoSeco _ => "ar_muito_seco"
  | .ventoForte _ _ _ => "vento_forte"
  | .chuvaIntensa _ _ => "chuva_intensa"
  | .chuvaAcumulada _ _ => "chuva_acumulada"
  | .uvExtremo _ _ => "uv_extremo"
  | .quedaBrusca _ _ => "queda_brusca"
  | .pressaoMuitoBaixa _ => "pressao_muito_baixa"

/-- ZonaTemperatura.verificar_critico (zona_temperatura.py lines
180-223).  The source returns `None` for an empty list; the empty list
plays that role here (both are falsy at every use site).  The abrupt
change branch runs only under Python truthiness of the prior reading
and of its `tem_ins` field (`if leitura_anterior:` and
`if temp_anterior:`), so a prior temperature of exactly 0 skips it. -/
def verificarCriticoTemperatura (tempAtual : ℚ) (leituraAnterior : Option Leitura) :
    List Alerta :=
  let a1 : List Alerta :=
    if tempAtual > CONFORTO_MUITO_QUENTE then
      [.calorExtremo tempAtual CONFORTO_MUITO_QUENTE] else []
  let a2 : List Alerta :=
    if tempAtual < TEMP_BAIXA then [.frioExtremo tempAtual TEMP_BAIXA] else []
  let a3 : List Alerta :=
    match leituraAnterior with
    | none => []
    | some l =>
        match l.temIns with
        | none => []
        | some tempAnterior =>
            if tempAnterior = 0 then []
            else
              let delta := tempAtual - tempAnterior
              if |delta| ≥ 5 then
                [.mudancaBrusca delta tempAnterior tempAtual
                  (if delta < 0 then "queda" else "subida")]
              else []
  a1 ++ a2 ++ a3

/-- ZonaPressao.verificar_critico (zona_pressao.py lines 186-214): a
sharp drop strictly below -5 hPa in one hour, `elif` absolute pressure
below 1005 hPa. -/
def verificarCriticoPressao (pressaoAtual delta1h : ℚ) : List Alerta :=
  if delta1h < -5 then [.quedaBrusca pressaoAtual delta1h]
  else if pressaoAtual < 1005 then [.pressaoMuitoBaixa pressaoAtual]
  else []

/-- One entry of `states['alertas_criticos']`. -/
structure CritEntry where
  ativo : Bool
  ultimaMudanca : Instant
deriving DecidableEq, Repr

/-- The `alertas_criticos` dict: per critical kind an optional entry. -/
def CriticosMap : Type := String → Option CritEntry

/-- StateManager.get_critical_state: the stored `ativo` flag, `False`
when the kind has never been recorded. -/
def getCriticalState (criticos : CriticosMap) (tipoCritico : String) : Bool :=
  match criticos tipoCritico with
  | some e => e.ativo
  | none => false

/-- StateManager.should_send_critical (state_manager.py lines 228-246):
true exactly when the persisted flag differs from `ativo_agora`.  The
function consults no clock, so how long the condition has persisted is
irrelevant. -/
def shouldSendCritical (criticos : CriticosMap) (tipoCritico : String)
    (ativoAgora : Bool) : Bool :=
  if getCriticalState criticos tipoCritico ≠ ativoAgora then true else false

/-- The `alerta_geral` snapshot once it has been populated.  The source
keeps the four keys in one dict and always writes them together
(`update_general_alert`); `should_send_general_alert` treats a null
`ultima_temp` as "no snapshot". -/
structure AlertaGeralSnap where
  ultimaTemp : ℚ
  ultimaUmid : ℚ
  ultimaPressao : ℚ
  ultimoEnvio : Option Instant
deriving DecidableEq, Repr

/-- Which branch of `should_send_general_alert` produced the decision.
The source returns a formatted reason string; the constructor carries
the same data the string interpolates. -/
inductive MotivoGeral where
  | primeiraLeitura
  | variacaoTemp (antes depois : ℚ)
  | variacaoUmid (antes depois : ℚ)
  | variacaoPressao (antes depois : ℚ)
  | periodica (horas : ℚ)
  | nenhum
deriving DecidableEq, Repr

/-- StateManager.should_send_general_alert (state_manager.py lines
248-296): bootstrap when no snapshot, then the drift checks against the
last dispatched snapshot in the order temperature, humidity, pressure,
then the 6-hour periodic refresh (hours as elapsed seconds / 3600). -/
def shouldSendGeneralAlert (snap : Option AlertaGeralSnap)
    (tempAtual umidAtual pressaoAtual : ℚ) (agora : Instant) :
    Bool × MotivoGeral :=
  match snap with
  | none => (true, .primeiraLeitura)
  | some s =>
      if |tempAtual - s.ultimaTemp| ≥ LIMITE_TEMP then
        (true, .variacaoTemp s.ultimaTemp tempAtual)
      else if |umidAtual - s.ultimaUmid| ≥ LIMITE_UMIDADE then
        (true, .variacaoUmid s.ultimaUmid umidAtual)
      else if |pressaoAtual - s.ultimaPressao| ≥ LIMITE_PRESSAO then
        (true, .variacaoPressao s.ultimaPressao pressaoAtual)
      else
        match s.ultimoEnvio with
        | some ultimo =>
            let horas := (agora.seconds - ultimo.seconds) / 3600
            if horas ≥ 6 then (true, .periodica horas) else (false, .nenhum)
        | none => (false, .nenhum)

/-- StateManager.update_general_alert: the snapshot becomes the values
just sent, stamped with `datetime.now()`. -/
def updateGeneralAlert (temp umid pressao : ℚ) (now : Instant) : AlertaGeralSnap :=
  { ultimaTemp := temp, ultimaUmid := umid, ultimaPressao := pressao,
    ultimoEnvio := some now }

/-- The `relatorios` entry of states.json: timestamps of the last
sunrise and sunset reports. -/
structure ReportState where
  ultimoBomDia : Option Instant
  ultimoBoaNoite : Option Instant
deriving DecidableEq, Repr

/-- StateManager.should_send_report (state_manager.py lines 298-340):
fires only on a radiation sign crossing, and not when the stored last
report of that type carries today's local date. -/
def shouldSendReport (tipo : String) (radAtual : ℚ) (radAnterior : Option ℚ)
    (relatorios : ReportState) (now : Instant) : Bool :=
  if tipo = "bom_dia" then
    match radAnterior with
    | some ra =>
        if ra ≤ 0 ∧ radAtual > 0 then
          match relatorios.ultimoBomDia with
          | some ultimo => if ultimo.dia = now.dia then false else true
          | none => true
        else false
    | none => false
  else if tipo = "boa_noite" then
    match radAnterior with
    | some ra =>
        if ra > 0 ∧ radAtual ≤ 0 then
          match relatorios.ultimoBoaNoite with
          | some ultimo => if ultimo.dia = now.dia then false else true
          | none => true
        else false
    | none => false
  else false

/-- StateManager.update_report: stamp the last report of the given type
with `datetime.now()`. -/
def updateReport (tipo : String) (relatorios : ReportState) (now : Instant) :
    ReportState :=
  if tipo = "bom_dia" then { relatorios with ultimoBomDia := some now }
  else if tipo = "boa_noite" then { relatorios with ultimoBoaNoite := some now }
  else relatorios

/-! ### Orchestrator (main.py) -/

/-- The general-alert block of main (lines 338-362): the snapshot is
replaced by the values just sent only when the decision fired and the
send succeeded. -/
def generalAlertStep (snap : Option AlertaGeralSnap)
    (temp umid pressao : ℚ) (agora : Instant) (sendOk : Bool) :
    Option AlertaGeralSnap :=
  let r := shouldSendGeneralAlert snap temp umid pressao agora
  if r.1 ∧ sendOk then some (updateGeneralAlert temp umid pressao agora) else snap

/-- One domain's zone state across one cycle: `detectar_mudanca` inside
`processar_zonas` followed by the unconditional `update_zone_state` loop
of main.py lines 256-258, restricted to that domain. -/
def cicloZona (classificar : ℚ → String) (atual : ℚ) (st : ZoneState)
    (now : Instant) : ZoneState × Option Mudanca :=
  match detectarMudanca classificar atual st now with
  | none => (st, none)
  | some m => (updateZoneState m.zonaAtual atual now, some m)

end Sentinela

namespace Sentinela

/-- C1: zone classification is a total function (a Lean `def`) whose
half-open boundaries match the section 4.1 table: 18.9 is FRIO, 19.0 is
FRESCO, 32.9 is MUITO_QUENTE, 33.0 is EXTREMO; radiation at or below 0
(including negative sensor values) is NOITE, and strictly between 0 and
50 is CREPUSCULO. -/
theorem classificacao_fronteiras_exatas :
    classificarTemperatura (189/10) = "FRIO" ∧
    classificarTemperatura 19 = "FRESCO" ∧
    classificarTemperatura (329/10) = "MUITO_QUENTE" ∧
    classificarTemperatura 33 = "EXTREMO" ∧
    (∀ r : ℚ, r ≤ 0 → classificarRadiacao r = "NOITE") ∧
    (∀ r : ℚ, 0 < r → r < 50 → classificarRadiacao r = "CREPUSCULO") := by
  refine ⟨by norm_num [classificarTemperatura, CONFORTO_FRIO],
    by norm_num [classificarTemperatura, CONFORTO_FRIO, CONFORTO_FRESCO],
    ?_, ?_, ?_, ?_⟩
  · norm_num [classificarTemperatura, CONFORTO_FRIO, CONFORTO_FRESCO,
      CONFORTO_IDEAL, CONFORTO_MORNO, CONFORTO_QUENTE, CONFORTO_MUITO_QUENTE]
  · norm_num [classificarTemperatura, CONFORTO_FRIO, CONFORTO_FRESCO,
      CONFORTO_IDEAL, CONFORTO_MORNO, CONFORTO_QUENTE, CONFORTO_MUITO_QUENTE]
  · intro r hr
    simp [classificarRadiacao, hr]
  · intro r hr0 hr50
    simp [classificarRadiacao, not_le.mpr hr0, hr50]

/-- Witness for `classificacao_fronteiras_exatas`: the radiation clauses
instantiated at -5 and at 49. -/
theorem classificacao_fronteiras_exatas_witness :
    classificarRadiacao (-5) = "NOITE" ∧ classificarRadiacao 49 = "CREPUSCULO" :=
  ⟨classificacao_fronteiras_exatas.2.2.2.2.1 (-5) (by norm_num),
   classificacao_fronteiras_exatas.2.2.2.2.2 49 (by norm_num) (by norm_num)⟩

/-- C2: should_send_critical returns true exactly when the flag computed
now differs from the persisted flag; whenever they agree it returns
false, and the function consults nothing else (in particular no clock),
so the answer is the same however long the condition has persisted. -/
theorem debounce_critico_apenas_na_borda (criticos : CriticosMap)
    (tipoCritico : String) (ativoAgora : Bool) :
    shouldSendCritical criticos tipoCritico ativoAgora = true ↔
      ativoAgora ≠ getCriticalState criticos tipoCritico := by
  simp [shouldSendCritical]
  exact ne_comm

/-- C3: with no persisted zone, detection yields a first-reading event
and the message renderer yields no message for it; a value classifying
into the persisted zone yields no event at all; a value classifying into
a different zone yields a zone-change event carrying the prior and
current zones and values.  The detector is stated for an arbitrary
classifier, hence for all six domains at once. -/
theorem deteccao_transicao_correta (classificar : ℚ → String) (v : ℚ)
    (st : ZoneState) (now : Instant) :
    (st.zona = none →
      detectarMudanca classificar v st now =
        some (.primeiraLeitura (classificar v) v) ∧
      gerarAlertaInteligenteTemperatura (.primeiraLeitura (classificar v) v) = none) ∧
    (∀ z, st.zona = some z → classificar v = z →
      detectarMudanca classificar v st now = none) ∧
    (∀ z, st.zona = some z → classificar v ≠ z →
      detectarMudanca classificar v st now =
        some (.mudancaZona z (classificar v) st.valor v now)) := by
  refine ⟨?_, ?_, ?_⟩
  · intro h
    simp [detectarMudanca, h, gerarAlertaInteligenteTemperatura]
  · intro z hz hcz
    simp [detectarMudanca, hz, hcz]
  · intro z hz hcz
    simp [detectarMudanca, hz, hcz]

/-- Witness for `deteccao_transicao_correta`: the three branches at
concrete temperature inputs (bootstrap at 22 C, 23 C inside IDEAL,
25 C leaving IDEAL for MORNO). -/
theorem deteccao_transicao_correta_witness :
    (detectarMudanca classificarTemperatura 22 ⟨none, none, none⟩ ⟨0, 0⟩ =
      some (.primeiraLeitura "IDEAL" 22) ∧
     gerarAlertaInteligenteTemperatura (.primeiraLeitura "IDEAL" 22) = none) ∧
    detectarMudanca classificarTemperatura 23 ⟨some "IDEAL", some 22, some ⟨0, 0⟩⟩ ⟨1, 0⟩ = none ∧
    detectarMudanca classificarTemperatura 25 ⟨some "IDEAL", some 22, some ⟨0, 0⟩⟩ ⟨1, 0⟩ =
      some (.mudancaZona "IDEAL" "MORNO" (some 22) 25 ⟨1, 0⟩) := by
  have h1 := (deteccao_transicao_correta classificarTemperatura 22 ⟨none, none, none⟩ ⟨0, 0⟩).1 rfl
  have h2 := (deteccao_transicao_correta classificarTemperatura 23
    ⟨some "IDEAL", some 22, some ⟨0, 0⟩⟩ ⟨1, 0⟩).2.1 "IDEAL" rfl (by decide)
  have h3 := (deteccao_transicao_correta classificarTemperatura 25
    ⟨some "IDEAL", some 22, some ⟨0, 0⟩⟩ ⟨1, 0⟩).2.2 "IDEAL" rfl (by decide)
  refine ⟨?_, h2, ?_⟩
  · simpa using h1
  · simpa using h3

/-- C10: on a cycle whose reading classifies into the already-persisted
zone the per-domain state is returned untouched (zone, value and
last-changed all unchanged, so the stored value is not refreshed), and
a zone change on a later cycle therefore reports as its prior value the
value recorded at the previous zone change, not the intermediate
reading. -/
theorem estado_zona_congelado_sem_evento (classificar : ℚ → String)
    (v1 v2 : ℚ) (z : String) (st : ZoneState) (now1 now2 : Instant) :
    st.zona = some z → classificar v1 = z →
    (cicloZona classificar v1 st now1).1 = st ∧
    (classificar v2 ≠ z →
      (cicloZona classificar v2 (cicloZona classificar v1 st now1).1 now2).2 =
        some (.mudancaZona z (classificar v2) st.valor v2 now2)) := by
  intro hz hv1
  have hsame : cicloZona classificar v1 st now1 = (st, none) := by
    simp [cicloZona, detectarMudanca, hz, hv1]
  refine ⟨by simp [hsame], ?_⟩
  intro hv2
  rw [hsame]
  simp [cicloZona, detectarMudanca, hz, hv2]

/-- Witness for `estado_zona_congelado_sem_evento`: stored value 22 in
IDEAL, an intra-zone reading of 23.5 leaves the state untouched, and the
following jump to 25 C (MORNO) reports prior value 22, not 23.5. -/
theorem estado_zona_congelado_sem_evento_witness :
    (cicloZona classificarTemperatura (47/2)
      ⟨some "IDEAL", some 22, some ⟨0, 0⟩⟩ ⟨1, 0⟩).1 =
      ⟨some "IDEAL", some 22, some ⟨0, 0⟩⟩ ∧
    (cicloZona classificarTemperatura 25
      (cicloZona classificarTemperatura (47/2)
        ⟨some "IDEAL", some 22, some ⟨0, 0⟩⟩ ⟨1, 0⟩).1 ⟨2, 0⟩).2 =
      some (.mudancaZona "IDEAL" "MORNO" (some 22) 25 ⟨2, 0⟩) := by
  have h := estado_zona_congelado_sem_evento classificarTemperatura (47/2) 25 "IDEAL"
    ⟨some "IDEAL", some 22, some ⟨0, 0⟩⟩ ⟨1, 0⟩ ⟨2, 0⟩ rfl
    (by simp only [classificarTemperatura, CONFORTO_FRIO, CONFORTO_FRESCO,
      CONFORTO_IDEAL]; norm_num)
  exact ⟨h.1, by simpa using h.2 (by decide)⟩

/-- C4 counterexample: at a 1-hour delta of exactly -5.0 hPa the claimed
inclusive threshold would fire the sharp-drop event, but the evaluator
(strict `delta_1h < -5.0`) emits nothing at 1010 hPa. -/
theorem pressao_critico_contraexemplo :
    ((-5 : ℚ) ≤ -5) ∧ verificarCriticoPressao 1010 (-5) = [] := by
  constructor
  · norm_num
  · norm_num [verificarCriticoPressao]

/-- C4 amended: the sharp-drop event fires exactly when the 1-hour delta
is strictly below -5.0 hPa; the very-low-pressure event fires exactly
when the sharp drop did not fire and the absolute pressure is below
1005 hPa (drop has precedence); at 1004 hPa with delta -6.0 only the
sharp drop is emitted. -/
theorem pressao_critico_caracterizacao :
    (∀ p d : ℚ,
      (Alerta.quedaBrusca p d ∈ verificarCriticoPressao p d ↔ d < -5) ∧
      (Alerta.pressaoMuitoBaixa p ∈ verificarCriticoPressao p d ↔ ¬ d < -5 ∧ p < 1005)) ∧
    verificarCriticoPressao 1004 (-6) = [Alerta.quedaBrusca 1004 (-6)] := by
  constructor
  · intro p d
    by_cases hd : d < -5 <;> by_cases hp : p < 1005 <;>
      simp [verificarCriticoPressao, hd, hp]
  · norm_num [verificarCriticoPressao]

/-- C5 counterexample: a prior reading is present with temperature field
exactly 0.0 and the current reading is 20 C, so the 1-hour difference is
20 degrees, yet the evaluator emits no alert at all: the Python
truthiness guard `if temp_anterior:` skips the abrupt-change check when
the prior temperature is 0.0. -/
theorem mudanca_brusca_contraexemplo :
    |(20 : ℚ) - 0| ≥ 5 ∧
    verificarCriticoTemperatura 20
      (some ⟨some 0, none, none, none, none, none, none⟩) = [] := by
  constructor
  · norm_num
  · norm_num [verificarCriticoTemperatura, CONFORTO_MUITO_QUENTE, TEMP_BAIXA]

/-- C5 amended: when the prior 1-hour reading is present and its
temperature field is present and non-zero, the abrupt-change event is
emitted exactly when the absolute 1-hour difference is at least 5.0
degrees C; the absolute heat (>33.0) and cold (<18.0) events fire on
their thresholds for any prior reading, present or not. -/
theorem temperatura_critico_caracterizacao :
    (∀ (t tAnt : ℚ) (l : Leitura), l.temIns = some tAnt → tAnt ≠ 0 →
      (Alerta.mudancaBrusca (t - tAnt) tAnt t
          (if t - tAnt < 0 then "queda" else "subida") ∈
        verificarCriticoTemperatura t (some l) ↔ |t - tAnt| ≥ 5)) ∧
    (∀ (t : ℚ) (anterior : Option Leitura),
      (Alerta.calorExtremo t CONFORTO_MUITO_QUENTE ∈
        verificarCriticoTemperatura t anterior ↔ t > CONFORTO_MUITO_QUENTE) ∧
      (Alerta.frioExtremo t TEMP_BAIXA ∈
        verificarCriticoTemperatura t anterior ↔ t < TEMP_BAIXA)) := by
  constructor
  · intro t tAnt l hl hne
    by_cases hq : t > CONFORTO_MUITO_QUENTE <;> by_cases hf : t < TEMP_BAIXA <;>
      by_cases hd : |t - tAnt| ≥ 5 <;>
        simp [verificarCriticoTemperatura, hl, hne, hq, hf, hd]
  · intro t anterior
    rcases anterior with _ | l
    · by_cases hq : t > CONFORTO_MUITO_QUENTE <;> by_cases hf : t < TEMP_BAIXA <;>
        simp [verificarCriticoTemperatura, hq, hf]
    · rcases hl : l.temIns with _ | tAnt
      · by_cases hq : t > CONFORTO_MUITO_QUENTE <;> by_cases hf : t < TEMP_BAIXA <;>
          simp [verificarCriticoTemperatura, hl, hq, hf]
      · by_cases hne : tAnt = 0 <;> by_cases hq : t > CONFORTO_MUITO_QUENTE <;>
          by_cases hf : t < TEMP_BAIXA <;> by_cases hd : |t - tAnt| ≥ 5 <;>
            simp [verificarCriticoTemperatura, hl, hne, hq, hf, hd]

/-- Witness for `temperatura_critico_caracterizacao`: a rise from 21 C
to 27 C in one hour emits the abrupt-change alert, and 27 C triggers
neither heat nor cold. -/
theorem temperatura_critico_caracterizacao_witness :
    (Alerta.mudancaBrusca ((27 : ℚ) - 21) 21 27
        (if (27 : ℚ) - 21 < 0 then "queda" else "subida") ∈
      verificarCriticoTemperatura 27
        (some ⟨some 21, none, none, none, none, none, none⟩) ∧
    ¬ Alerta.calorExtremo 27 CONFORTO_MUITO_QUENTE ∈
      verificarCriticoTemperatura 27
        (some ⟨some 21, none, none, none, none, none, none⟩)) := by
  constructor
  · exact (temperatura_critico_caracterizacao.1 27 21
      ⟨some 21, none, none, none, none, none, none⟩ rfl (by norm_num)).mpr (by norm_num)
  · intro hmem
    have := (temperatura_critico_caracterizacao.2 27
      (some ⟨some 21, none, none, none, none, none, none⟩)).1.mp hmem
    norm_num [CONFORTO_MUITO_QUENTE] at this

/-- C6 counterexample: with a snapshot sent exactly 21600 seconds (6
hours, not more) earlier and zero drift in all three variables, the
evaluator already fires the periodic cause (`horas >= 6` is inclusive),
so the claimed strict "more than 6 hours" condition does not describe
the code. -/
theorem alerta_geral_contraexemplo :
    shouldSendGeneralAlert (some ⟨24, 60, 1015, some ⟨0, 0⟩⟩) 24 60 1015 ⟨21600, 0⟩ =
      (true, .periodica 6) ∧
    ¬ ((21600 : ℚ) - 0 > 6 * 3600) := by
  constructor
  · simp only [shouldSendGeneralAlert, LIMITE_TEMP, LIMITE_UMIDADE, LIMITE_PRESSAO]
    norm_num
  · norm_num

/-- C6 amended: the general alert fires iff no snapshot exists, or one
of the drift thresholds (0.5 C, 5 points, 2.0 hPa) is reached against
the last dispatched snapshot, or at least 6 hours (inclusive) have
elapsed since the last dispatch; exactly one cause is reported, the
first satisfied in the order bootstrap, temperature, humidity,
pressure, periodic; and the snapshot is replaced by the values actually
sent only on a successful dispatch, left untouched on failure. -/
theorem alerta_geral_caracterizacao (snap : Option AlertaGeralSnap)
    (t u p : ℚ) (agora : Instant) :
    ((shouldSendGeneralAlert snap t u p agora).1 = true ↔
      snap = none ∨ ∃ s, snap = some s ∧
        (|t - s.ultimaTemp| ≥ LIMITE_TEMP ∨ |u - s.ultimaUmid| ≥ LIMITE_UMIDADE ∨
         |p - s.ultimaPressao| ≥ LIMITE_PRESSAO ∨
         ∃ ultimo, s.ultimoEnvio = some ultimo ∧
           (agora.seconds - ultimo.seconds) / 3600 ≥ 6)) ∧
    (snap = none → (shouldSendGeneralAlert snap t u p agora).2 = .primeiraLeitura) ∧
    (∀ s, snap = some s → |t - s.ultimaTemp| ≥ LIMITE_TEMP →
      (shouldSendGeneralAlert snap t u p agora).2 = .variacaoTemp s.ultimaTemp t) ∧
    (∀ s, snap = some s → |t - s.ultimaTemp| < LIMITE_TEMP →
      |u - s.ultimaUmid| ≥ LIMITE_UMIDADE →
      (shouldSendGeneralAlert snap t u p agora).2 = .variacaoUmid s.ultimaUmid u) ∧
    (∀ s, snap = some s → |t - s.ultimaTemp| < LIMITE_TEMP →
      |u - s.ultimaUmid| < LIMITE_UMIDADE → |p - s.ultimaPressao| ≥ LIMITE_PRESSAO →
      (shouldSendGeneralAlert snap t u p agora).2 = .variacaoPressao s.ultimaPressao p) ∧
    (∀ s ultimo, snap = some s → |t - s.ultimaTemp| < LIMITE_TEMP →
      |u - s.ultimaUmid| < LIMITE_UMIDADE → |p - s.ultimaPressao| < LIMITE_PRESSAO →
      s.ultimoEnvio = some ultimo → (agora.seconds - ultimo.seconds) / 3600 ≥ 6 →
      (shouldSendGeneralAlert snap t u p agora).2 =
        .periodica ((agora.seconds - ultimo.seconds) / 3600)) ∧
    (generalAlertStep snap t u p agora false = snap) ∧
    ((shouldSendGeneralAlert snap t u p agora).1 = true →
      generalAlertStep snap t u p agora true = some ⟨t, u, p, some agora⟩) := by
  rcases snap with _ | s
  · simp [shouldSendGeneralAlert, generalAlertStep, updateGeneralAlert]
  · refine ⟨?_, ?_, ?_, ?_, ?_, ?_, ?_, ?_⟩
    · by_cases ht : |t - s.ultimaTemp| ≥ LIMITE_TEMP
      · simp [shouldSendGeneralAlert, ht]
      · by_cases hu : |u - s.ultimaUmid| ≥ LIMITE_UMIDADE
        · simp [shouldSendGeneralAlert, ht, hu]
        · by_cases hp : |p - s.ultimaPressao| ≥ LIMITE_PRESSAO
          · simp [shouldSendGeneralAlert, ht, hu, hp]
          · rcases he : s.ultimoEnvio with _ | ultimo
            · simp [shouldSendGeneralAlert, ht, hu, hp, he]
            · by_cases hh : (agora.seconds - ultimo.seconds) / 3600 ≥ 6
              · simp [shouldSendGeneralAlert, ht, hu, hp, he, hh]
              · simp [shouldSendGeneralAlert, ht, hu, hp, he, hh]
    · simp
    · intro s' hs hT
      injection hs with hs
      subst hs
      simp [shouldSendGeneralAlert, hT]
    · intro s' hs hTlt hU
      injection hs with hs
      subst hs
      simp [shouldSendGeneralAlert, not_le.mpr hTlt, hU]
    · intro s' hs hTlt hUlt hP
      injection hs with hs
      subst hs
      simp [shouldSendGeneralAlert, not_le.mpr hTlt, not_le.mpr hUlt, hP]
    · intro s' ultimo hs hTlt hUlt hPlt he hh
      injection hs with hs
      subst hs
      simp [shouldSendGeneralAlert, not_le.mpr hTlt, not_le.mpr hUlt,
        not_le.mpr hPlt, he, hh]
    · simp [generalAlertStep]
    · intro h1
      simp [generalAlertStep, updateGeneralAlert, h1]

/-- Witness for `alerta_geral_caracterizacao`: snapshot at 24 C / 60
percent / 1015 hPa, reading 25 C two hours later fires with the
temperature cause and a successful dispatch rewrites the snapshot to
the sent values. -/
theorem alerta_geral_caracterizacao_witness :
    (shouldSendGeneralAlert (some ⟨24, 60, 1015, some ⟨0, 0⟩⟩) 25 60 1015 ⟨7200, 0⟩).2 =
      .variacaoTemp 24 25 ∧
    generalAlertStep (some ⟨24, 60, 1015, some ⟨0, 0⟩⟩) 25 60 1015 ⟨7200, 0⟩ true =
      some ⟨25, 60, 1015, some ⟨7200, 0⟩⟩ := by
  have h := alerta_geral_caracterizacao (some ⟨24, 60, 1015, some ⟨0, 0⟩⟩)
    25 60 1015 ⟨7200, 0⟩
  refine ⟨h.2.2.1 ⟨24, 60, 1015, some ⟨0, 0⟩⟩ rfl (by norm_num [LIMITE_TEMP]), ?_⟩
  refine h.2.2.2.2.2.2.2 ?_
  refine h.1.mpr (.inr ⟨⟨24, 60, 1015, some ⟨0, 0⟩⟩, rfl, .inl (by norm_num [LIMITE_TEMP])⟩)

/-- C7: a report can be dispatched only on a cycle whose radiation sign
crosses zero in the matching direction (prior at or below 0 and current
above 0 for sunrise, the reverse for sunset), and once a report of a
type has been recorded for the current local date, every later call on
the same date returns false, whatever the radiation values do. -/
theorem relatorio_uma_vez_por_dia (radAtual : ℚ) (radAnterior : Option ℚ)
    (relatorios : ReportState) (now : Instant) :
    (shouldSendReport "bom_dia" radAtual radAnterior relatorios now = true →
      ∃ ra, radAnterior = some ra ∧ ra ≤ 0 ∧ radAtual > 0) ∧
    (shouldSendReport "boa_noite" radAtual radAnterior relatorios now = true →
      ∃ ra, radAnterior = some ra ∧ ra > 0 ∧ radAtual ≤ 0) ∧
    (∀ (r2 : ℚ) (ra2 : Option ℚ) (now2 : Instant), now2.dia = now.dia →
      shouldSendReport "bom_dia" r2 ra2 (updateReport "bom_dia" relatorios now) now2 =
        false) ∧
    (∀ (r2 : ℚ) (ra2 : Option ℚ) (now2 : Instant), now2.dia = now.dia →
      shouldSendReport "boa_noite" r2 ra2 (updateReport "boa_noite" relatorios now) now2 =
        false) := by
  refine ⟨?_, ?_, ?_, ?_⟩
  · intro h
    rcases radAnterior with _ | ra
    · simp [shouldSendReport] at h
    · refine ⟨ra, rfl, ?_⟩
      by_contra hc
      rw [not_and_or, not_le, not_lt] at hc
      have : ¬ (ra ≤ 0 ∧ radAtual > 0) := by
        rcases hc with hc | hc
        · exact fun hh => absurd hh.1 (not_le.mpr hc)
        · exact fun hh => absurd hh.2 (not_lt.mpr hc)
      simp [shouldSendReport, this] at h
  · intro h
    rcases radAnterior with _ | ra
    · simp [shouldSendReport] at h
    · refine ⟨ra, rfl, ?_⟩
      by_contra hc
      rw [not_and_or, not_lt, not_le] at hc
      have : ¬ (ra > 0 ∧ radAtual ≤ 0) := by
        rcases hc with hc | hc
        · exact fun hh => absurd hh.1 (not_lt.mpr hc)
        · exact fun hh => absurd hh.2 (not_le.mpr hc)
      simp [shouldSendReport, this] at h
  · intro r2 ra2 now2 hdia
    rcases ra2 with _ | ra
    · simp [shouldSendReport]
    · by_cases hcross : ra ≤ 0 ∧ r2 > 0 <;>
        simp [shouldSendReport, updateReport, hcross, hdia]
  · intro r2 ra2 now2 hdia
    rcases ra2 with _ | ra
    · simp [shouldSendReport]
    · by_cases hcross : ra > 0 ∧ r2 ≤ 0 <;>
        simp [shouldSendReport, updateReport, hcross, hdia]

/-- Witness for `relatorio_uma_vez_por_dia`: after a sunrise report is
recorded on day 5, a later qualifying crossing (prior -1, current 10) on
day 5 does not dispatch again; and a firing call implies the crossing. -/
theorem relatorio_uma_vez_por_dia_witness :
    shouldSendReport "bom_dia" 10 (some (-1))
      (updateReport "bom_dia" ⟨none, none⟩ ⟨100, 5⟩) ⟨7300, 5⟩ = false ∧
    ∃ ra, (some (-1) : Option ℚ) = some ra ∧ ra ≤ 0 ∧ (10 : ℚ) > 0 := by
  constructor
  · exact (relatorio_uma_vez_por_dia 10 (some (-1)) ⟨none, none⟩ ⟨100, 5⟩).2.2.1
      10 (some (-1)) ⟨7300, 5⟩ rfl
  · exact (relatorio_uma_vez_por_dia 10 (some (-1)) ⟨none, none⟩ ⟨100, 5⟩).1
      (by norm_num [shouldSendReport])

end Sentinela
